import Mathlib

/-!
Shallow embedding of the `monitor_docker` container-fleet health monitor
(`monitor_docker.py`, the Monitor process, and `app_monitor_docker.py`, the
Supervisor / chat-bot process).

Python strings are modelled as `List Char`; the simulated wall clock is a ℚ
measured in minutes; Python `float` arithmetic on usage counters is modelled
exactly over ℚ.  Collaborator data (container list, log tails, stats
snapshots, host partitions) is passed in as explicit arguments.  Side
effects are modelled by explicit state passing: the silencing registry and
the disk-usage cache are association lists threaded through the checks, and
`send_alert` calls are collected into a result list.
-/

/-- Convert a Lean string literal to the `List Char` text representation. -/
def chars (s : String) : List Char := s.toList

/-- ASCII lower-casing, as applied by case-insensitive regex matching. -/
def lowerAscii (c : Char) : Char :=
  if 65 ≤ c.toNat ∧ c.toNat ≤ 90 then Char.ofNat (c.toNat + 32) else c

/-- One pattern character against one text character, `re.IGNORECASE`
semantics for the pattern alphabet actually used by the program: `.` matches
any character except a newline, every other character matches itself
case-insensitively. -/
def patCharMatches (p c : Char) : Bool :=
  if p = '.' then c ≠ '\n' else lowerAscii p = lowerAscii c

/-- Does the pattern match a prefix of the text? -/
def matchesAt : List Char → List Char → Bool
  | [], _ => true
  | _ :: _, [] => false
  | p :: ps, c :: cs => patCharMatches p c && matchesAt ps cs

/-- `re.search(pattern, text, re.IGNORECASE)` as a Boolean: the pattern
matches starting at some position of the text. -/
def reSearch (pat : List Char) : List Char → Bool
  | [] => matchesAt pat []
  | c :: rest => matchesAt pat (c :: rest) || reSearch pat rest

/-- Fuel-driven worker for `finditer`: scan left to right, record each
leftmost match as a `(start, end)` pair and resume after its end
(non-overlapping matches, as `re.finditer`). -/
def finditerAux (pat : List Char) : ℕ → List Char → ℕ → List (ℕ × ℕ)
  | 0, _, _ => []
  | fuel + 1, text, pos =>
    if matchesAt pat text then
      (pos, pos + pat.length) :: finditerAux pat fuel (text.drop pat.length) (pos + pat.length)
    else
      match text with
      | [] => []
      | _ :: rest => finditerAux pat fuel rest (pos + 1)

/-- `re.finditer(pattern, text, re.IGNORECASE)`: the `(start, end)` spans of
all non-overlapping matches, leftmost first. -/
def finditer (pat text : List Char) : List (ℕ × ℕ) :=
  finditerAux pat (text.length + 1) text 0

/-- Plain case-sensitive substring test (Python `needle in haystack`). -/
def containsSub (pat : List Char) : List Char → Bool
  | [] => pat.isPrefixOf []
  | c :: rest => pat.isPrefixOf (c :: rest) || containsSub pat rest

/-- The whitespace characters stripped by Python `str.strip()` /
split on by `str.split()` (ASCII fragment). -/
def isSpaceChar (c : Char) : Bool :=
  c = ' ' || c = '\t' || c = '\n' || c = '\r' || c = '\x0b' || c = '\x0c'

/-- Python `str.strip()` with no arguments. -/
def pyStrip (s : List Char) : List Char :=
  (((s.dropWhile isSpaceChar).reverse).dropWhile isSpaceChar).reverse

/-- Worker for `pySplit`, accumulating the current token reversed. -/
def pySplitAux : List Char → List Char → List (List Char)
  | [], acc => if acc = [] then [] else [acc.reverse]
  | c :: rest, acc =>
    if isSpaceChar c then
      if acc = [] then pySplitAux rest [] else acc.reverse :: pySplitAux rest []
    else pySplitAux rest (c :: acc)

/-- Python `str.split()` with no arguments: tokens separated by runs of
whitespace, with no empty tokens. -/
def pySplit (s : List Char) : List (List Char) := pySplitAux s []

/-- The decimal digit character for `n < 10`. -/
def digitChar (n : ℕ) : Char := Char.ofNat (48 + n)

/-- Decimal digits of a natural number, most significant first; the first
argument is structural-recursion fuel. -/
def natCharsAux : ℕ → ℕ → List Char
  | 0, _ => []
  | fuel + 1, n =>
    if n < 10 then [digitChar n]
    else natCharsAux fuel (n / 10) ++ [digitChar (n % 10)]

/-- Python `str(n)` for a natural number. -/
def natChars (n : ℕ) : List Char := natCharsAux (n + 1) n

/-- Python `str(i)` for an integer. -/
def intChars (i : ℤ) : List Char :=
  if i < 0 then '-' :: natChars i.natAbs else natChars i.natAbs

/-- The value of a decimal digit character, if it is one. -/
def digitVal (c : Char) : Option ℕ :=
  if 48 ≤ c.toNat ∧ c.toNat ≤ 57 then some (c.toNat - 48) else none

/-- Parse a nonempty all-digit string as a natural number. -/
def digitsToNat (s : List Char) : Option ℕ :=
  if s = [] then none
  else s.foldl (fun acc c => acc.bind (fun a => (digitVal c).map (fun d => a * 10 + d))) (some 0)

/-- Python `int(s)` on a string: strip whitespace, optional sign, decimal
digits; `none` models the `ValueError` raised on anything else. -/
def pyInt (s : List Char) : Option ℤ :=
  match pyStrip s with
  | '-' :: rest => (digitsToNat rest).map (fun n => -(n : ℤ))
  | '+' :: rest => (digitsToNat rest).map (fun n => (n : ℤ))
  | t => (digitsToNat t).map (fun n => (n : ℤ))

/-- Round a fraction `num / den` (with `den > 0`) to the nearest integer,
ties to even — the rounding used by Python fixed-point formatting. -/
def roundHalfEvenInt (num den : ℤ) : ℤ :=
  let f := Int.fdiv num den
  let r2 := 2 * (num - f * den)
  if r2 < den then f
  else if den < r2 then f + 1
  else if f % 2 = 0 then f else f + 1

/-- Python `f-string` fixed-point formatting of a rational to `prec` decimal
places (the program uses `.1f` and `.2f`). -/
def fmtRat (prec : ℕ) (q : ℚ) : List Char :=
  let scaled := roundHalfEvenInt (q.num * (10 : ℤ) ^ prec) (q.den : ℤ)
  let sign : List Char := if scaled < 0 then ['-'] else []
  let a := scaled.natAbs
  let frac := natChars (a % 10 ^ prec)
  sign ++ natChars (a / 10 ^ prec) ++ ['.'] ++
    (List.replicate (prec - frac.length) '0' ++ frac)

/-! ## Static configuration (module constants of `monitor_docker.py`) -/

/-- `ERROR_PATTERNS`: the four case-insensitive error patterns scanned for
in container logs. -/
def ERROR_PATTERNS : List (List Char) :=
  [chars "error", chars "exception", chars "fail", chars "critical"]

/-- `IGNORE_PATTERNS`: context substrings that suppress a log match. -/
def IGNORE_PATTERNS : List (List Char) :=
  [chars "Failed to fetch price for ticker",
   chars "No price fetched",
   chars "use of closed network connection",
   chars "Failed to list containers for docker",
   chars "Cannot connect to docker server context canceled",
   chars "/lib/python2.7/site-packages/chameleon/py26.py"]

/-- `CPU_THRESHOLD` (percent). -/
def CPU_THRESHOLD : ℚ := 90

/-- `MEMORY_THRESHOLD` (percent). -/
def MEMORY_THRESHOLD : ℚ := 90

/-- `DISK_THRESHOLD` (percent).  Defined by the source but referenced
nowhere else in it. -/
def DISK_THRESHOLD : ℚ := 90

/-! ## Silencing registry (`silenced_alerts`, a Python dict) -/

/-- The `silenced_alerts` dict: container name to absolute expiry time, in
insertion order, and likewise the `last_logged_usage` disk cache. -/
abbrev Registry := List (List Char × ℚ)

/-- Dict lookup. -/
def lookupAssoc : Registry → List Char → Option ℚ
  | [], _ => none
  | (m, e) :: rest, n => if m = n then some e else lookupAssoc rest n

/-- Dict assignment `d[n] = t`: overwrite in place if the key exists,
append otherwise. -/
def setAssoc : Registry → List Char → ℚ → Registry
  | [], n, t => [(n, t)]
  | (m, e) :: rest, n, t =>
    if m = n then (n, t) :: rest else (m, e) :: setAssoc rest n t

/-- Dict deletion `del d[n]`. -/
def eraseAssoc : Registry → List Char → Registry
  | [], _ => []
  | (m, e) :: rest, n =>
    if m = n then eraseAssoc rest n else (m, e) :: eraseAssoc rest n

/-- `silence_alert(container_name, duration_minutes)`: record
`now + duration` as the expiry and return the confirmation text. -/
def silence_alert (now : ℚ) (reg : Registry) (container_name : List Char)
    (duration_minutes : ℤ) : Registry × List Char :=
  (setAssoc reg container_name (now + (duration_minutes : ℚ)),
   chars "Alerts for container " ++ container_name ++ chars " silenced for " ++
     intChars duration_minutes ++ chars " minutes.")

/-- `unsilence_alert(container_name)`. -/
def unsilence_alert (reg : Registry) (container_name : List Char) :
    Registry × List Char :=
  if (lookupAssoc reg container_name).isSome then
    (eraseAssoc reg container_name,
     chars "Alerts for container " ++ container_name ++ chars " unsilenced.")
  else
    (reg, chars "Container " ++ container_name ++ chars " was not silenced.")

/-- `is_silenced(container_name)`: true and registry untouched while
`now < expiry`; on an expired entry, delete it and answer false. -/
def is_silenced (now : ℚ) (reg : Registry) (container_name : List Char) :
    Bool × Registry :=
  match lookupAssoc reg container_name with
  | some e => if now < e then (true, reg) else (false, eraseAssoc reg container_name)
  | none => (false, reg)

/-! ## Containers and the per-container checks -/

/-- One alert delivered through `send_alert(container_name, message)`. -/
structure Alert where
  name : List Char
  msg : List Char
deriving DecidableEq

/-- A container as seen through the runtime collaborator during one sweep:
its reloaded status, the text of the last 25 log lines (`logs(tail=25)`),
the single stats snapshot, the restart count and the image tags. -/
structure Container where
  name : List Char
  status : List Char
  logsTail : List Char
  cpu_total_usage : ℚ
  system_cpu_usage : ℚ
  memory_usage : ℚ
  memory_limit : ℚ
  restartCount : ℕ
  imageTags : List (List Char)

/-- The context window of a match spanning `[s, e)`:
`logs[max(0, s - 100) : min(len(logs), e + 100)]` (ℕ subtraction clamps the
lower bound at 0). -/
def contextWindow (logs : List Char) (s e : ℕ) : List Char :=
  (logs.drop (s - 100)).take (min logs.length (e + 100) - (s - 100))

/-- Does the context window of a match contain any ignore pattern
(case-insensitive `re.search`)? -/
def matchIgnored (logs : List Char) (m : ℕ × ℕ) : Bool :=
  IGNORE_PATTERNS.any (fun ip => reSearch ip (contextWindow logs m.1 m.2))

/-- The log-scanner core of `check_container_logs`: for each error pattern,
every non-overlapping match whose context window holds no ignore pattern
produces one alert carrying the context as its body.  (The companion
`write_container_logs` append to the relay file is not modelled.) -/
def scanAlertsFor (cname logs : List Char) : List Alert :=
  ERROR_PATTERNS.flatMap (fun pat =>
    (finditer pat logs).filterMap (fun m =>
      if matchIgnored logs m then none
      else some ⟨cname, chars "Error detected in container " ++ cname ++
        chars ":\n\n" ++ contextWindow logs m.1 m.2⟩))

/-- `check_container_logs(container)`: first the inline silence check
(skip while `now < expiry`, delete an expired entry and continue), then the
log scan. -/
def check_container_logs (now : ℚ) (reg : Registry) (c : Container) :
    Registry × List Alert :=
  match lookupAssoc reg c.name with
  | some e =>
    if now < e then (reg, [])
    else (eraseAssoc reg c.name, scanAlertsFor c.name c.logsTail)
  | none => (reg, scanAlertsFor c.name c.logsTail)

/-- `cpu_percent = (cpu_usage / system_cpu_usage) * 100` from one snapshot. -/
def cpu_percent_of (cpu_usage system_cpu_usage : ℚ) : ℚ :=
  cpu_usage / system_cpu_usage * 100

/-- `memory_percent = (memory_usage / memory_limit) * 100`. -/
def memory_percent_of (memory_usage memory_limit : ℚ) : ℚ :=
  memory_usage / memory_limit * 100

/-- The high-CPU alert of `check_container_resources`. -/
def cpuAlertOf (c : Container) : Alert :=
  ⟨c.name, chars "High CPU usage detected in container " ++ c.name ++ chars ": " ++
    fmtRat 2 (cpu_percent_of c.cpu_total_usage c.system_cpu_usage) ++ chars "%"⟩

/-- The high-memory alert of `check_container_resources`. -/
def memAlertOf (c : Container) : Alert :=
  ⟨c.name, chars "High memory usage detected in container " ++ c.name ++ chars ": " ++
    fmtRat 2 (memory_percent_of c.memory_usage c.memory_limit) ++ chars "%"⟩

/-- `check_container_resources(container)`: each metric above its threshold
yields one alert; a zero divisor raises `ZeroDivisionError`, which the
enclosing `except` swallows, so no alert is emitted then.  The silencing
registry is not consulted.  -/
def check_container_resources (c : Container) : List Alert :=
  if c.system_cpu_usage = 0 ∨ c.memory_limit = 0 then []
  else
    (if cpu_percent_of c.cpu_total_usage c.system_cpu_usage > CPU_THRESHOLD then
      [cpuAlertOf c] else []) ++
    (if memory_percent_of c.memory_usage c.memory_limit > MEMORY_THRESHOLD then
      [memAlertOf c] else [])

/-- `check_container_restarts(container)`: alert when the restart count
exceeds 3.  The silencing registry is not consulted. -/
def check_container_restarts (c : Container) : List Alert :=
  if c.restartCount > 3 then
    [⟨c.name, chars "Container " ++ c.name ++ chars " has restarted " ++
      natChars c.restartCount ++ chars " times"⟩]
  else []

/-- `check_image_version(container)`: alert when the image has no tags or a
`latest` tag.  The silencing registry is not consulted. -/
def check_image_version (c : Container) : List Alert :=
  if c.imageTags = [] ∨ chars "latest" ∈ c.imageTags then
    [⟨c.name, chars "Container " ++ c.name ++
      chars " is using an untagged or \x27latest\x27 image. Consider using specific version tags."⟩]
  else []

/-- The alert emitted by `check_containers` for an exited container. -/
def exitedAlert (c : Container) : Alert :=
  ⟨c.name, chars "Container " ++ c.name ++
    chars " has stopped. Last 25 lines of logs:\n\n" ++ c.logsTail⟩

/-- The per-container body of `check_containers`: an exited container gets
the stopped alert and nothing else; otherwise the four checks run in source
order, with the registry threaded through the log check. -/
def checkOneContainer (now : ℚ) (reg : Registry) (c : Container) :
    Registry × List Alert :=
  if c.status = chars "exited" then (reg, [exitedAlert c])
  else
    ((check_container_logs now reg c).1,
     (check_container_logs now reg c).2 ++ check_container_resources c ++
       check_container_restarts c ++ check_image_version c)

/-! ## Disk usage reporter -/

/-- One host partition as enumerated by the filesystem collaborator. -/
structure DiskPartition where
  device : List Char
  mountpoint : List Char
  percent : ℚ
  usedBytes : ℚ
  totalBytes : ℚ

/-- The `last_logged_usage` gate of `check_disk_usage`: a diagnostic line is
logged when the device is new to the cache or its usage moved by more than
5 points. -/
def significantChange (cache : Registry) (p : DiskPartition) : Bool :=
  match lookupAssoc cache p.device with
  | none => true
  | some last => decide (|last - p.percent| > 5)

/-- `check_disk_usage()`: walk the partitions, skip `snap` mountpoints, and
emit a diagnostic log line (recorded here by device, the human-readable
rendering being elided) and a cache update exactly when the change gate
fires.  The function sends no alerts; its return value (the joined report)
is discarded by the sweep. -/
def check_disk_usage (cache : Registry) (parts : List DiskPartition) :
    Registry × List (List Char) :=
  parts.foldl (fun acc p =>
    if containsSub (chars "snap") p.mountpoint then acc
    else if significantChange acc.1 p then
      (setAssoc acc.1 p.device p.percent, acc.2 ++ [p.device])
    else acc) (cache, [])

/-! ## The sweep (`check_containers`) -/

/-- `check_containers()`: every listed container is processed in turn with
the registry threaded through, then `check_disk_usage()` runs once
globally.  Result: final registry, all alerts of the sweep in emission
order, and the updated disk cache. -/
def check_containers (now : ℚ) (reg : Registry) (cs : List Container)
    (cache : Registry) (parts : List DiskPartition) :
    Registry × List Alert × Registry :=
  let folded := cs.foldl (fun acc c =>
    ((checkOneContainer now acc.1 c).1, acc.2 ++ (checkOneContainer now acc.1 c).2))
    (reg, [])
  (folded.1, folded.2, (check_disk_usage cache parts).1)

/-- The alerts emitted by one sweep. -/
def sweepAlerts (now : ℚ) (reg : Registry) (cs : List Container)
    (cache : Registry) (parts : List DiskPartition) : List Alert :=
  (check_containers now reg cs cache parts).2.1

/-! ## Command mailbox and command dispatch -/

/-- The Supervisor's `send_command(command)`: overwrite the single command
slot. -/
def send_command (command : List Char) (_slot : Option (List Char)) :
    Option (List Char) :=
  some command

/-- The Monitor's `read_command()`: return the stripped pending command and
remove the file, or signal empty. -/
def read_command (slot : Option (List Char)) :
    Option (List Char) × Option (List Char) :=
  match slot with
  | some s => (some (pyStrip s), none)
  | none => (none, none)

/-- The status listing line for one registry entry: remaining minutes to
one decimal place, computed from the expiry and the current time. -/
def statusLineFor (now : ℚ) (p : List Char × ℚ) : List Char :=
  p.1 ++ chars ": silenced for " ++ fmtRat 1 (p.2 - now) ++ chars " more minutes\n"

/-- The `status` command's report: a line for every entry the dict holds
(the loop does not test expiry), or the fixed empty-registry text. -/
def statusReport (now : ℚ) (reg : Registry) : List Char :=
  chars "Currently silenced alerts:\n" ++
    (if reg.length > 0 then (reg.map (statusLineFor now)).flatten
     else chars "No alerts are currently silenced.")

/-- Outcome of `handle_command`: the status text written together with the
updated registry, or an uncaught Python `ValueError` (from tuple unpacking
or `int()`), which propagates out of the command loop. -/
inductive HandleResult where
  | ok (reg : Registry) (status : List Char)
  | valueError
deriving DecidableEq

/-- `handle_command(command)` on the Monitor: dispatch on the verb.
Collaborator results are arguments: the listed container names for `list`,
the truncation outcome for `log_clear`, and the rendered report of
`get_disk_usage()` for `disk_usage`.  An unmatched verb falls through and
writes the empty status. -/
def handle_command (now : ℚ) (reg : Registry) (containerNames : List (List Char))
    (truncateOk : Bool) (truncateErr : List Char) (diskReport : List Char)
    (command : List Char) : HandleResult :=
  if (chars "silence").isPrefixOf command then
    match pySplit command with
    | [_, container_name, duration] =>
      match pyInt duration with
      | some d => .ok (silence_alert now reg container_name d).1
          (silence_alert now reg container_name d).2
      | none => .valueError
    | _ => .valueError
  else if (chars "unsilence").isPrefixOf command then
    match pySplit command with
    | [_, container_name] => .ok (unsilence_alert reg container_name).1
        (unsilence_alert reg container_name).2
    | _ => .valueError
  else if command = chars "status" then .ok reg (statusReport now reg)
  else if command = chars "list" then
    .ok reg (if containerNames ≠ [] then
        (containerNames.intersperse (chars "\n")).flatten
      else chars "No active containers found.")
  else if command = chars "log_clear" then
    .ok reg (if truncateOk then chars "MongoDB logs have been truncated successfully."
      else chars "Failed to truncate MongoDB logs: " ++ truncateErr)
  else if command = chars "disk_usage" then .ok reg diskReport
  else .ok reg []

/-- The Supervisor's `/silence` Telegram handler (`handle_silence`): on a
well-formed message, forward the command to the mailbox and confirm; on a
`ValueError` from unpacking, reply with the fixed usage string and forward
nothing.  Result: the command written to the slot (if any) and the bot
reply. -/
def handle_silence (text : List Char) : Option (List Char) × List Char :=
  match pySplit text with
  | [_, container_name, duration] =>
    (some (chars "silence " ++ container_name ++ chars " " ++ duration),
     chars "Silencing " ++ container_name ++ chars " for " ++ duration ++ chars " minutes.")
  | _ => (none, chars "Invalid command. Use: /silence <container_name> <duration_minutes>")

/-! ## Concrete collaborator data used by the concrete theorems -/

/-- A running container matching the spec's resource scenario:
`cpu_usage = 50`, `system_cpu_usage = 100`, memory `950` of `1000`. -/
def webContainer : Container :=
  ⟨chars "web", chars "running", [], 50, 100, 950, 1000, 0, [chars "1.0"]⟩

/-- A running container whose log tail is `"ERROR: disk full"`. -/
def dbErrorLogContainer : Container :=
  ⟨chars "db", chars "running", chars "ERROR: disk full", 0, 1, 0, 1, 0, [chars "1.0"]⟩

/-- The same log tail immediately preceded by the ignore phrase
`"No price fetched"`, well inside the 100-character window. -/
def dbIgnoredLogContainer : Container :=
  ⟨chars "db", chars "running", chars "No price fetched ERROR: disk full", 0, 1, 0, 1, 0,
   [chars "1.0"]⟩

/-- A container whose reloaded status is `exited`. -/
def dbExitedContainer : Container :=
  ⟨chars "db", chars "exited", chars "panic: db crashed", 0, 1, 0, 1, 0, [chars "1.0"]⟩

/-- A non-snap partition at 95 percent usage — above `DISK_THRESHOLD`. -/
def rootPartition95 : DiskPartition :=
  ⟨chars "/dev/sda1", chars "/", 95, 50, 100⟩

/-! ## Helper lemmas -/

/-- Looking up a key right after assigning it yields the assigned value. -/
theorem lookup_setAssoc_self (reg : Registry) (n : List Char) (t : ℚ) :
    lookupAssoc (setAssoc reg n t) n = some t := by
  induction reg with
  | nil => simp [setAssoc, lookupAssoc]
  | cons p rest ih =>
    obtain ⟨m, e⟩ := p
    by_cases h : m = n
    · simp [setAssoc, lookupAssoc, h]
    · simp [setAssoc, lookupAssoc, h, ih]

/-- Looking up a key right after deleting it yields nothing. -/
theorem lookup_eraseAssoc_self (reg : Registry) (n : List Char) :
    lookupAssoc (eraseAssoc reg n) n = none := by
  induction reg with
  | nil => simp [eraseAssoc, lookupAssoc]
  | cons p rest ih =>
    obtain ⟨m, e⟩ := p
    by_cases h : m = n
    · simp [eraseAssoc, h, ih]
    · simp [eraseAssoc, lookupAssoc, h, ih]

/-- Freshly silencing a name stores `now + duration` for it. -/
theorem lookup_after_silence (now : ℚ) (reg : Registry) (n : List Char) (d : ℤ) :
    lookupAssoc (silence_alert now reg n d).1 n = some (now + (d : ℚ)) := by
  simpa [silence_alert] using lookup_setAssoc_self reg n (now + (d : ℚ))

/-- `check_container_resources` on the concrete `web` container: the CPU
ratio is 50 percent (below threshold), memory is 95 percent (above), so
exactly the memory alert is emitted. -/
theorem resources_web_eval :
    check_container_resources webContainer = [memAlertOf webContainer] := by
  have hz : ¬ (webContainer.system_cpu_usage = 0 ∨ webContainer.memory_limit = 0) := by
    norm_num [webContainer]
  have hcpu : ¬ (cpu_percent_of webContainer.cpu_total_usage webContainer.system_cpu_usage >
      CPU_THRESHOLD) := by
    norm_num [cpu_percent_of, webContainer, CPU_THRESHOLD]
  have hmem : memory_percent_of webContainer.memory_usage webContainer.memory_limit >
      MEMORY_THRESHOLD := by
    norm_num [memory_percent_of, webContainer, MEMORY_THRESHOLD]
  simp [check_container_resources, hz, hcpu, hmem]

/-- The memory alert of the `web` container, fully rendered. -/
theorem memAlert_web_eval :
    memAlertOf webContainer =
      ⟨chars "web", chars "High memory usage detected in container web: 95.00%"⟩ := by
  have h : memory_percent_of webContainer.memory_usage webContainer.memory_limit = 95 := by
    norm_num [memory_percent_of, webContainer]
  simp only [memAlertOf, h]
  decide

/-! ## Claim theorems -/

/-- C3: for every name `n` and duration `d > 0`, immediately after
`silence(n, d)` the registry answers `isSilenced(n) = true` and is left
intact, and once `d` minutes have elapsed on the simulated clock it answers
`false` and, as a side effect of that read, deletes the entry. -/
theorem silence_then_expiry_cycle (t : ℚ) (reg : Registry) (n : List Char) (d : ℤ)
    (hd : 0 < d) :
    is_silenced t (silence_alert t reg n d).1 n = (true, (silence_alert t reg n d).1) ∧
    is_silenced (t + (d : ℚ)) (silence_alert t reg n d).1 n =
      (false, eraseAssoc (silence_alert t reg n d).1 n) ∧
    lookupAssoc (eraseAssoc (silence_alert t reg n d).1 n) n = none := by
  have hl := lookup_after_silence t reg n d
  have hdq : (0 : ℚ) < (d : ℚ) := by exact_mod_cast hd
  refine ⟨?_, ?_, lookup_eraseAssoc_self _ _⟩
  · simp [is_silenced, hl, lt_add_of_pos_right t hdq]
  · simp [is_silenced, hl]

/-- Witness for the silence / expiry cycle at `n = "web"`, `d = 10`,
simulated clock starting at 0. -/
theorem silence_then_expiry_cycle_witness :
    is_silenced 0 (silence_alert 0 [] (chars "web") 10).1 (chars "web") =
      (true, (silence_alert 0 [] (chars "web") 10).1) ∧
    is_silenced (0 + ((10 : ℤ) : ℚ)) (silence_alert 0 [] (chars "web") 10).1 (chars "web") =
      (false, eraseAssoc (silence_alert 0 [] (chars "web") 10).1 (chars "web")) ∧
    lookupAssoc (eraseAssoc (silence_alert 0 [] (chars "web") 10).1 (chars "web"))
      (chars "web") = none :=
  silence_then_expiry_cycle 0 [] (chars "web") 10 (by decide)

/-- C10: `silence(n, d)` with `d ≤ 0` still succeeds and returns the normal
confirmation text, but the stored entry is already expired: any later
`isSilenced(n)` read answers false and deletes it, and the log check scans
normally, so a non-positive duration never suppresses an alert. -/
theorem nonpositive_silence_expires_immediately (t t2 : ℚ) (reg : Registry)
    (n : List Char) (d : ℤ) (c : Container)
    (hd : d ≤ 0) (ht : t ≤ t2) (hc : c.name = n) :
    (silence_alert t reg n d).2 =
      chars "Alerts for container " ++ n ++ chars " silenced for " ++
        intChars d ++ chars " minutes." ∧
    is_silenced t2 (silence_alert t reg n d).1 n =
      (false, eraseAssoc (silence_alert t reg n d).1 n) ∧
    lookupAssoc (eraseAssoc (silence_alert t reg n d).1 n) n = none ∧
    check_container_logs t2 (silence_alert t reg n d).1 c =
      (eraseAssoc (silence_alert t reg n d).1 n, scanAlertsFor c.name c.logsTail) := by
  have hl := lookup_after_silence t reg n d
  have hnotlt : ¬ t2 < t + (d : ℚ) := by
    have hdq : (d : ℚ) ≤ 0 := by exact_mod_cast hd
    have : t + (d : ℚ) ≤ t2 := by linarith
    exact not_lt.mpr this
  refine ⟨rfl, ?_, lookup_eraseAssoc_self _ _, ?_⟩
  · simp [is_silenced, hl, hnotlt]
  · simp [check_container_logs, hc, hl, hnotlt]

/-- Witness for the non-positive-duration behaviour at `d = -5`, silenced at
time 0 and read at time 1. -/
theorem nonpositive_silence_expires_immediately_witness :
    (silence_alert 0 [] (chars "web") (-5)).2 =
      chars "Alerts for container " ++ chars "web" ++ chars " silenced for " ++
        intChars (-5) ++ chars " minutes." ∧
    is_silenced 1 (silence_alert 0 [] (chars "web") (-5)).1 (chars "web") =
      (false, eraseAssoc (silence_alert 0 [] (chars "web") (-5)).1 (chars "web")) ∧
    lookupAssoc (eraseAssoc (silence_alert 0 [] (chars "web") (-5)).1 (chars "web"))
      (chars "web") = none ∧
    check_container_logs 1 (silence_alert 0 [] (chars "web") (-5)).1 webContainer =
      (eraseAssoc (silence_alert 0 [] (chars "web") (-5)).1 (chars "web"),
       scanAlertsFor webContainer.name webContainer.logsTail) :=
  nonpositive_silence_expires_immediately 0 1 [] (chars "web") (-5) webContainer
    (by decide) (by decide) (by decide)

/-- C2 counterexample: at time 0 the container `web` is silenced until
time 10 (`isSilenced` is true and keeps the entry), yet the sweep body
still emits its high-memory alert — the resource check never consults the
silencing registry, so silencing does not suppress every alert kind. -/
theorem silenced_resource_alert_counterexample :
    is_silenced 0 [(chars "web", 10)] (chars "web") = (true, [(chars "web", 10)]) ∧
    (checkOneContainer 0 [(chars "web", 10)] webContainer).2 = [memAlertOf webContainer] := by
  constructor
  · decide
  · have hst : ¬ (webContainer.status = chars "exited") := by decide
    have hlt : (0 : ℚ) < 10 := by decide
    have hrr : check_container_restarts webContainer = [] := by decide
    have him : check_image_version webContainer = [] := by decide
    have hname : webContainer.name = chars "web" := rfl
    simp [checkOneContainer, check_container_logs, hst, hlt,
      resources_web_eval, hrr, him, hname, lookupAssoc]

/-- C2 amended: while a container's silence entry is active, the sweep body
suppresses only the log-scan alerts; the resource, restart-count and
image-tag checks run unconditionally and their alerts are still emitted. -/
theorem silence_gates_only_log_scan (now : ℚ) (reg : Registry) (c : Container) (e : ℚ)
    (hs : lookupAssoc reg c.name = some e) (hlt : now < e)
    (hst : c.status ≠ chars "exited") :
    checkOneContainer now reg c =
      (reg, check_container_resources c ++ check_container_restarts c ++
        check_image_version c) := by
  simp [checkOneContainer, check_container_logs, hs, hst, hlt]

/-- Witness: the silenced `web` container at time 0 with expiry 10. -/
theorem silence_gates_only_log_scan_witness :
    checkOneContainer 0 [(chars "web", 10)] webContainer =
      ([(chars "web", 10)], check_container_resources webContainer ++
        check_container_restarts webContainer ++ check_image_version webContainer) :=
  silence_gates_only_log_scan 0 [(chars "web", 10)] webContainer 10
    (by decide) (by decide) (by decide)

/-- C8: a container whose reloaded status is `exited` yields exactly one
alert this sweep — its message holds the literal text `has stopped` and the
fetched log tail — and the log-scan, resource, restart and image checks are
all skipped (the registry is left untouched and no other alert appears). -/
theorem exited_container_short_circuit (now : ℚ) (reg : Registry) (c : Container)
    (h : c.status = chars "exited") :
    checkOneContainer now reg c = (reg, [exitedAlert c]) ∧
    chars "has stopped" <:+: (exitedAlert c).msg ∧
    c.logsTail <:+: (exitedAlert c).msg := by
  have hx : chars " has stopped. Last 25 lines of logs:\n\n" =
      chars " " ++ (chars "has stopped" ++ chars ". Last 25 lines of logs:\n\n") := by decide
  refine ⟨by simp [checkOneContainer, h], ?_, ?_⟩
  · refine ⟨chars "Container " ++ c.name ++ chars " ",
      chars ". Last 25 lines of logs:\n\n" ++ c.logsTail, ?_⟩
    simp only [exitedAlert]
    rw [hx]
    simp [List.append_assoc]
  · exact ⟨chars "Container " ++ c.name ++ chars " has stopped. Last 25 lines of logs:\n\n",
      [], by simp [exitedAlert]⟩

/-- Witness: the exited `db` container at time 0 with an empty registry. -/
theorem exited_container_short_circuit_witness :
    checkOneContainer 0 [] dbExitedContainer = ([], [exitedAlert dbExitedContainer]) ∧
    chars "has stopped" <:+: (exitedAlert dbExitedContainer).msg ∧
    dbExitedContainer.logsTail <:+: (exitedAlert dbExitedContainer).msg :=
  exited_container_short_circuit 0 [] dbExitedContainer (by decide)

/-- C4: on an unsilenced container whose last 25 log lines are
`"ERROR: disk full"`, the log scan produces exactly one alert, carrying the
context window of the match; with the ignore phrase `"No price fetched"`
within 100 characters of the same match, it produces zero alerts. -/
theorem log_scan_window_behavior :
    (check_container_logs 0 [] dbErrorLogContainer).2 =
      [⟨chars "db", chars "Error detected in container db:\n\nERROR: disk full"⟩] ∧
    (check_container_logs 0 [] dbIgnoredLogContainer).2 = [] := by
  constructor
  · decide
  · decide

/-- C5: from a single stats snapshot the resource monitor computes
`cpu_percent = cpu_usage / system_cpu_usage * 100` and
`memory_percent = usage / limit * 100`; with `cpu_usage = 50`,
`system_cpu_usage = 100` the CPU percent is 50, and memory `950` of `1000`
is 95 percent, above the threshold 90, so exactly the memory alert fires. -/
theorem resource_percent_computation :
    cpu_percent_of 50 100 = 50 ∧
    memory_percent_of 950 1000 = 95 ∧
    MEMORY_THRESHOLD = 90 ∧
    check_container_resources webContainer = [memAlertOf webContainer] ∧
    memAlertOf webContainer =
      ⟨chars "web", chars "High memory usage detected in container web: 95.00%"⟩ :=
  ⟨by norm_num [cpu_percent_of], by norm_num [memory_percent_of], rfl,
   resources_web_eval, memAlert_web_eval⟩

/-- C7: writing `"silence web 10"` into the command slot and then doing the
read-and-clear returns exactly that command once and empties the slot; a
second read-and-clear on the empty slot signals empty. -/
theorem command_slot_roundtrip :
    read_command (send_command (chars "silence web 10") none) =
      (some (chars "silence web 10"), none) ∧
    read_command (read_command (send_command (chars "silence web 10") none)).2 =
      (none, none) := by
  constructor
  · decide
  · decide

/-- C9 counterexample: on the Monitor, the command text `"silence web"`
(minutes argument missing) makes `handle_command` raise a `ValueError`
from tuple unpacking — nothing catches it, so the command loop crashes
instead of replying with a usage string. -/
theorem malformed_command_counterexample :
    handle_command 0 [] [] true [] [] (chars "silence web") = .valueError := by
  decide

/-- C9 amended: only the Supervisor replies to a malformed silence command
with the fixed usage string and forwards nothing; the Monitor's
`handle_command` raises `ValueError` on a malformed or non-numeric
`silence` command (crashing its loop), and an unrecognized verb writes an
empty status, not a usage string. -/
theorem malformed_command_behavior :
    handle_silence (chars "/silence web") =
      (none, chars "Invalid command. Use: /silence <container_name> <duration_minutes>") ∧
    handle_command 0 [] [] true [] [] (chars "silence web ten") = .valueError ∧
    handle_command 0 [] [] true [] [] (chars "unsilence") = .valueError ∧
    handle_command 0 [] [] true [] [] (chars "frobnicate") = .ok [] [] := by
  refine ⟨by decide, by decide, by decide, by decide⟩

/-- C6 counterexample: a registry whose only entry (`db`, expiry 5) is
already expired at call time 10 still gets a line in the `status` listing —
the loop never tests `now < expiry`, so expired entries do appear. -/
theorem status_lists_expired_counterexample :
    ¬ ((10 : ℚ) < 5) ∧
    containsSub (chars "db: silenced for") (statusReport 10 [(chars "db", 5)]) = true := by
  exact ⟨by decide, by decide⟩

/-- C6 amended: the `status` listing renders one line for every entry the
registry holds — active or expired — giving the container name and the
remaining minutes (negative once expired) computed at call time to one
decimal place; only an empty registry yields the fixed no-alerts text. -/
theorem status_lists_every_entry (now : ℚ) (reg : Registry) (h : reg ≠ []) :
    statusReport now reg =
      chars "Currently silenced alerts:\n" ++ (reg.map (statusLineFor now)).flatten ∧
    (reg.map (statusLineFor now)).length = reg.length ∧
    ∀ p ∈ reg, statusLineFor now p =
      p.1 ++ chars ": silenced for " ++ fmtRat 1 (p.2 - now) ++ chars " more minutes\n" := by
  refine ⟨?_, by simp, fun p _ => rfl⟩
  unfold statusReport
  rw [if_pos (List.length_pos.mpr h)]

/-- Witness: one expired entry (`db`, expiry 5, read at 10). -/
theorem status_lists_every_entry_witness :
    statusReport 10 [(chars "db", 5)] =
      chars "Currently silenced alerts:\n" ++
        ([(chars "db", (5 : ℚ))].map (statusLineFor 10)).flatten ∧
    ([(chars "db", (5 : ℚ))].map (statusLineFor 10)).length =
      [(chars "db", (5 : ℚ))].length ∧
    ∀ p ∈ [(chars "db", (5 : ℚ))], statusLineFor 10 p =
      p.1 ++ chars ": silenced for " ++ fmtRat 1 (p.2 - 10) ++ chars " more minutes\n" :=
  status_lists_every_entry 10 [(chars "db", 5)] (by decide)

/-- C1 counterexample: a sweep over no containers with a single non-snap
partition at 95 percent usage — above `DISK_THRESHOLD = 90` — emits no
alert at all: `check_disk_usage` contains no `send_alert` call. -/
theorem disk_threshold_alert_counterexample :
    (95 : ℚ) > DISK_THRESHOLD ∧
    sweepAlerts 0 [] [] [] [rootPartition95] = [] := by
  exact ⟨by decide, rfl⟩

/-- C1 amended: the disk-usage check never invokes `send_alert` — every
alert of a sweep comes from the per-container checks, so a sweep over no
containers produces none regardless of partition usage (`DISK_THRESHOLD`
is referenced nowhere) — and the `last_logged_usage` cache gates only the
diagnostic log line: a non-snap partition gets one exactly when its device
is new to the cache or its usage moved by more than 5 points. -/
theorem disk_check_logs_but_never_alerts (now : ℚ) (reg cache : Registry)
    (parts : List DiskPartition) (p : DiskPartition)
    (hp : containsSub (chars "snap") p.mountpoint = false) :
    sweepAlerts now reg [] cache parts = [] ∧
    DISK_THRESHOLD = 90 ∧
    (check_disk_usage cache [p]).2 =
      (if significantChange cache p then [p.device] else []) := by
  refine ⟨rfl, rfl, ?_⟩
  by_cases hs : significantChange cache p <;>
    simp [check_disk_usage, hp, hs]

/-- Witness: a fresh cache and the 95-percent root partition (its device is
new, so the diagnostic line is emitted while no alert is). -/
theorem disk_check_logs_but_never_alerts_witness :
    sweepAlerts 0 [] [] [] [] = [] ∧
    DISK_THRESHOLD = 90 ∧
    (check_disk_usage [] [rootPartition95]).2 =
      (if significantChange [] rootPartition95 then [rootPartition95.device] else []) :=
  disk_check_logs_but_never_alerts 0 [] [] [] rootPartition95 (by decide)
